import Mathlib

/-!
Verification of the tokenization / batching / train-predict glue of the
`microsoft/nlp` utilities against its natural-language specification.

The Python sources are shallowly embedded:

* `utils_nlp/bert/common.py` — `Tokenizer.preprocess_classification_tokens`,
  `Tokenizer.preprocess_ner_tokens`, `create_data_loader`;
* `utils_nlp/bert/token_classification.py` — `BERTTokenClassifier._get_optimizer`,
  the optimization-step computation of `fit`, `predict`,
  `postprocess_token_labels`;
* `utils_nlp/models/xlnet/sequence_classification.py` — the scheduler sizing of
  `XLNetSequenceClassifier.fit` and `XLNetSequenceClassifier.predict`;
* `utils_nlp/dataset/url_utils.py` — `maybe_download` over an explicit
  file-system state.

External collaborators (the pretrained tokenizer's subword splitter, the
vocabulary lookup, the model forward pass, the downloaded content) are
parameters of the embedding: the subword splitter is a function
`String → List String`, the vocabulary lookup a function `String → Nat`, the
per-row forward pass a function returning integer logits.  Token ids are
`Nat`, logits are `Int`; Python exceptions are an explicit error type and
fallible functions return `Except`.
-/

/-- Python exceptions that the embedded code can raise. -/
inductive PyErr
  | nameError (name : String)
  | typeError (msg : String)
  | valueError (msg : String)
deriving DecidableEq

/-- Python slice `x[0:e]` where the end index `e` may be negative
(a negative end counts from the end of the list, clamped at 0). -/
def pySliceTo (xs : List α) (e : Int) : List α :=
  if e < 0 then xs.take (xs.length - e.natAbs) else xs.take e.toNat

/-- Helper for `pySplit`: walks the character list, accumulating the current
word (reversed); whitespace ends a word, empty fragments are dropped. -/
def splitWsAux : List Char → List Char → List String
  | [], acc => if acc.isEmpty then [] else [String.mk acc.reverse]
  | c :: cs, acc =>
    if c.isWhitespace then
      if acc.isEmpty then splitWsAux cs []
      else String.mk acc.reverse :: splitWsAux cs []
    else splitWsAux cs (c :: acc)

/-- Python `str.split()` with no argument: split on runs of whitespace,
discarding empty fragments (leading/trailing whitespace produces nothing). -/
def pySplit (s : String) : List String := splitWsAux s.data []

/-- Helper for `splitOnChar`: splits a character list at every occurrence of
the separator, keeping empty fragments (Python `str.split(sep)` semantics). -/
def splitOnCharAux (sep : Char) : List Char → List Char → List String
  | [], acc => [String.mk acc.reverse]
  | c :: cs, acc =>
    if c = sep then String.mk acc.reverse :: splitOnCharAux sep cs []
    else splitOnCharAux sep cs (c :: acc)

/-- Python `str.split(sep)` for a one-character separator: empty fragments are
kept, and the result is never the empty list. -/
def splitOnChar (sep : Char) (s : String) : List String :=
  splitOnCharAux sep s.data []

/-- Fuel-driven worker for `chunks` (structural recursion on the fuel so that
the kernel can evaluate it). -/
def chunksAux (bs : Nat) : Nat → List α → List (List α)
  | 0, _ => []
  | _, [] => []
  | Nat.succ fuel, x :: xs => (x :: xs).take bs :: chunksAux bs fuel ((x :: xs).drop bs)

/-- Split a list into consecutive chunks of `bs` elements (the last chunk may
be shorter).  This models both a non-shuffling `DataLoader`'s batch sequence
and the `range(0, n, batch_size)` slicing loop.  `bs = 0` yields no chunks
(the Python frameworks raise on a zero batch size before producing batches). -/
def chunks (bs : Nat) (xs : List α) : List (List α) :=
  if bs = 0 then [] else chunksAux bs xs.length xs

/-- `utils_nlp/bert/common.py`: `BERT_MAX_LEN = 512`. -/
def BERT_MAX_LEN : Nat := 512

/-- `Tokenizer.preprocess_classification_tokens(tokens, max_len)` from
`utils_nlp/bert/common.py`, with the vocabulary lookup
`convert_tokens_to_ids` abstracted as `conv : String → Nat` applied
tokenwise.  Mirrors the source line by line: clamp `max_len` to
`BERT_MAX_LEN`; wrap each sequence as `["[CLS]"] + x[0:max_len-2] + ["[SEP]"]`
(a Python slice, so a negative `max_len - 2` counts from the end); convert to
ids; right-pad with `[0] * (max_len - len(x))` (empty when negative); derive
the input mask as `min(1, x)` per position. -/
def preprocess_classification_tokens (conv : String → Nat)
    (tokens : List (List String)) (max_len : Nat) :
    List (List Nat) × List (List Nat) :=
  let max_len := if max_len > BERT_MAX_LEN then BERT_MAX_LEN else max_len
  let tokens := tokens.map
    (fun x => ["[CLS]"] ++ pySliceTo x ((max_len : Int) - 2) ++ ["[SEP]"])
  let tokens := tokens.map (fun x => x.map conv)
  let tokens := tokens.map (fun x => x ++ List.replicate (max_len - x.length) 0)
  let input_mask := tokens.map (fun y => y.map (fun x => min 1 x))
  (tokens, input_mask)

/-- The labels emitted for the subword fragments of one word: the word's tag
on the first fragment, `ttag` on every later fragment (the inner
`for count, sub_word in enumerate(sub_words)` loop of
`preprocess_ner_tokens`, which overwrites `tag` with `trailing_piece_tag`
once `count > 0`). -/
def wordLabels (ttag tag : String) : List String → List String
  | [] => []
  | _ :: rest => tag :: rest.map (fun _ => ttag)

/-- The outer `for word, tag in zip(t.split(), t_labels)` loop of
`preprocess_ner_tokens`: tokenize each word with `tok`, and accumulate the
flattened fragment list together with the fragmentwise labels. -/
def buildTokensLabels (tok : String → List String) (ttag : String) :
    List (String × String) → List String × List String
  | [] => ([], [])
  | p :: rest =>
    let subs := tok p.1
    let r := buildTokensLabels tok ttag rest
    (subs ++ r.1, wordLabels ttag p.2 subs ++ r.2)

/-- Total number of subword fragments produced for a list of (word, tag)
pairs. -/
def totalFrags (tok : String → List String) (pairs : List (String × String)) : Nat :=
  (pairs.map (fun p => (tok p.1).length)).sum

/-- Position of the first fragment of word `j` inside the flattened fragment
sequence. -/
def fragOffset (tok : String → List String) (pairs : List (String × String))
    (j : Nat) : Nat :=
  totalFrags tok (pairs.take j)

/-- The per-sentence intermediate values of `preprocess_ner_tokens`:
padded token ids, input mask, trailing-token mask, and the padded label
strings (before the optional `label_map` application). -/
structure SentOut where
  input_ids : List Nat
  input_mask : List Nat
  trailing : List Bool
  labels_padded : List String
deriving DecidableEq

/-- One iteration of the `for t, t_labels in zip(text, labels)` loop of
`preprocess_ner_tokens`: build fragments and fragment labels, truncate both
to `max_len`, convert fragments to ids, right-pad ids and mask with 0 and the
labels with `"O"`, and compute the trailing-token mask as
`label != trailing_piece_tag` over the *padded* label list (the mask is
appended after `new_labels += label_padding` in the source). -/
def processSentence (conv : String → Nat) (tok : String → List String)
    (ttag : String) (max_len : Nat) (t : String) (t_labels : List String) :
    SentOut :=
  let built := buildTokensLabels tok ttag ((pySplit t).zip t_labels)
  let tokens := built.1
  let new_labels := built.2
  let tokens2 := if tokens.length > max_len then tokens.take max_len else tokens
  let new_labels2 := if tokens.length > max_len then new_labels.take max_len else new_labels
  let input_ids := tokens2.map conv
  let input_mask := List.replicate input_ids.length 1
  let padding := List.replicate (max_len - input_ids.length) 0
  let label_padding := List.replicate (max_len - input_ids.length) "O"
  let input_ids2 := input_ids ++ padding
  let input_mask2 := input_mask ++ padding
  let new_labels3 := new_labels2 ++ label_padding
  ⟨input_ids2, input_mask2, new_labels3.map (fun l => l != ttag), new_labels3⟩

/-- A label value as it appears in `label_ids_all`: an integer when a
`label_map` was supplied (and non-empty), the original string otherwise. -/
inductive PyLabel
  | int (n : Nat)
  | str (s : String)
deriving DecidableEq

/-- The conditional-arity return value of `preprocess_ner_tokens`: a 3-tuple
when `labels` was `None` at call time, a 4-tuple otherwise. -/
inductive NerResult
  | three (ids mask : List (List Nat)) (tmask : List (List Bool))
  | four (ids mask : List (List Nat)) (tmask : List (List Bool))
      (label_ids : List (List PyLabel))
deriving DecidableEq

/-- Whether a `NerResult` is the 4-tuple variant. -/
def NerResult.isFour : NerResult → Bool
  | .three _ _ _ => false
  | .four _ _ _ _ => true

/-- The trailing-token-mask component of a `preprocess_ner_tokens` result
(`[]` on the error path). -/
def nerTrailing : Except PyErr NerResult → List (List Bool)
  | .ok (.three _ _ t) => t
  | .ok (.four _ _ t _) => t
  | .error _ => []

/-- `Tokenizer.preprocess_ner_tokens` from `utils_nlp/bert/common.py`.

* `conv` abstracts `convert_tokens_to_ids` (applied tokenwise), `tok`
  abstracts `self.tokenizer.tokenize`.
* When `max_len > BERT_MAX_LEN` the source executes `logger.warning(...)`,
  but the module only defines `module_logger`; the name `logger` is unbound,
  so the call raises `NameError` — embedded as `.error (.nameError "logger")`.
* `label_available = labels is not None` is captured before defaulting.
* When `labels is None` the source substitutes `["O"] * len(text)`, a list of
  the *string* `"O"` per sentence; the inner `zip(t.split(), t_labels)` then
  iterates over the characters of that string, i.e. the single label `"O"` —
  embedded as the one-element list `["O"]` per sentence.
* `label_map` is a Python dict abstracted as `Option (String → Nat)`; the
  truthiness test `if label_map:` is `isSome` here (the empty-dict edge case
  and `KeyError` on missing keys are outside the claims being checked).
* The floating-point mask entries `1.0` / `0.0` are embedded as `1` / `0`. -/
def preprocess_ner_tokens (conv : String → Nat) (tok : String → List String)
    (text : List String) (max_len : Nat) (labels : Option (List (List String)))
    (label_map : Option (String → Nat)) (trailing_piece_tag : String) :
    Except PyErr NerResult :=
  if max_len > BERT_MAX_LEN then .error (.nameError "logger")
  else
    let label_available := labels.isSome
    let labelsLists : List (List String) :=
      match labels with
      | some ls => ls
      | none => text.map (fun _ => ["O"])
    let rows := (text.zip labelsLists).map
      (fun p => processSentence conv tok trailing_piece_tag max_len p.1 p.2)
    let input_ids_all := rows.map (fun r => r.input_ids)
    let input_mask_all := rows.map (fun r => r.input_mask)
    let trailing_token_mask_all := rows.map (fun r => r.trailing)
    let label_ids_all := rows.map (fun r =>
      match label_map with
      | some f => r.labels_padded.map (fun l => PyLabel.int (f l))
      | none => r.labels_padded.map PyLabel.str)
    if label_available then
      .ok (.four input_ids_all input_mask_all trailing_token_mask_all label_ids_all)
    else
      .ok (.three input_ids_all input_mask_all trailing_token_mask_all)

/-- Python truthiness of an optional list (`if labels:`): `False` for `None`
and for the empty list. -/
def listTruthy (l : Option (List α)) : Bool :=
  match l with
  | some xs => !xs.isEmpty
  | none => false

/-- The sampler selected by `create_data_loader`'s `name_to_sampler_class`
dictionary. -/
inductive SamplerKind
  | random
  | sequential
  | distributed
deriving DecidableEq

/-- The `name_to_sampler_class` dictionary lookup of `create_data_loader`. -/
def name_to_sampler_class (name : String) : Option SamplerKind :=
  if name = "random" then some .random
  else if name = "sequential" then some .sequential
  else if name = "distributed" then some .distributed
  else none

/-- The `TensorDataset` built by `create_data_loader`: two tensors when
`label_ids` is falsy (None or empty), three otherwise.  (Tensor construction
itself — e.g. rectangularity of the nested lists — is the framework's
unchecked contract, per the spec's error-handling section.) -/
inductive TensorData
  | two (input_ids input_mask : List (List Nat))
  | three (input_ids input_mask label_ids : List (List Nat))
deriving DecidableEq

/-- The `DataLoader` value returned by `create_data_loader`: the dataset, the
chosen sampler and the batch size. -/
structure DataLoaderModel where
  tensor_data : TensorData
  sampler : SamplerKind
  batch_size : Nat
deriving DecidableEq

/-- `create_data_loader` from `utils_nlp/bert/common.py`.  The dataset arity
is decided by the *truthiness* of `label_ids` (`if label_ids:`), unlike
`preprocess_ner_tokens`'s `is not None`.  An unknown `sample_method` raises
`ValueError` with the exact message of the source's `format` string. -/
def create_data_loader (input_ids input_mask : List (List Nat))
    (label_ids : Option (List (List Nat))) (sample_method : String)
    (batch_size : Nat) : Except String DataLoaderModel :=
  let tensor_data :=
    if listTruthy label_ids then
      TensorData.three input_ids input_mask (label_ids.getD [])
    else
      TensorData.two input_ids input_mask
  match name_to_sampler_class sample_method with
  | some s => .ok ⟨tensor_data, s, batch_size⟩
  | none => .error ("Invalid sample_method value: " ++ sample_method ++
      ", accepted values are: random, sequential, and distributed")

/-- Strip padded positions: the list comprehension
`[x for x, mask in zip(xs, mask_list) if mask == 1]` used by
`postprocess_token_labels` (generic in the element type, since it is applied
both to label rows and to boolean trailing-mask rows). -/
def stripPad (xs : List α) (m : List Nat) : List α :=
  ((xs.zip m).filter (fun p => p.2 == 1)).map (fun p => p.1)

/-- Filter by a boolean mask: the list comprehension
`[label for label, mask in zip(label_list, mask_list) if mask]`. -/
def maskFilter (xs : List α) (m : List Bool) : List α :=
  ((xs.zip m).filter (fun p => p.2)).map (fun p => p.1)

/-- `postprocess_token_labels` from `utils_nlp/bert/token_classification.py`,
generic in the label type.  The dict inversion
`{v: k for k, v in label_map.items()}` followed by elementwise lookup is
abstracted as an optional function applied elementwise (`None`/empty-dict
falsiness becomes `Option.isSome`; missing-key `KeyError` is the caller's
unchecked contract).  The trailing-mask truthiness test
`if remove_trailing_word_pieces and trailing_token_mask:` is `False` for
`None` and for the empty list. -/
def postprocess_token_labels (label_map : Option (α → α))
    (labels : List (List α)) (input_mask : List (List Nat))
    (remove_trailing_word_pieces : Bool)
    (trailing_token_mask : Option (List (List Bool))) : List (List α) :=
  let labels_org : List (List α) :=
    match label_map with
    | some f => labels.map (fun l => l.map f)
    | none => labels
  let labels_org_no_padding : List (List α) :=
    (labels_org.zip input_mask).map (fun p => stripPad p.1 p.2)
  if remove_trailing_word_pieces && listTruthy trailing_token_mask then
    let token_mask_no_padding :=
      ((trailing_token_mask.getD []).zip input_mask).map
        (fun p => stripPad p.1 p.2)
    (labels_org_no_padding.zip token_mask_no_padding).map
      (fun p => maskFilter p.1 p.2)
  else
    labels_org_no_padding

/-- Index of the first maximum of a logit row, accumulator form. -/
def argmaxIdxAux (best : Int) (bestIdx cur : Nat) : List Int → Nat
  | [] => bestIdx
  | x :: xs =>
    if x > best then argmaxIdxAux x cur (cur + 1) xs
    else argmaxIdxAux best bestIdx (cur + 1) xs

/-- `np.argmax` over one axis-slice: index of the first occurrence of the
maximum (0 on the empty list, where NumPy would raise). -/
def argmaxIdx : List Int → Nat
  | [] => 0
  | x :: xs => argmaxIdxAux x 0 1 xs

/-- The two-group optimizer built by `BERTTokenClassifier._get_optimizer`:
a plain fixed-rate `BertAdam` when `warmup_proportion` is `None`, otherwise a
`BertAdam` with a linear warm-up/decay schedule sized by `t_total`.  The
learning rate and warm-up proportion are floats, kept abstract as type
parameters. -/
inductive BertOptimizer (β γ : Type)
  | plain (lr : β)
  | warmupLinear (lr : β) (t_total : Nat) (warmup : γ)
deriving DecidableEq

/-- `BERTTokenClassifier._get_optimizer` from
`utils_nlp/bert/token_classification.py` (the parameter-group construction
over model weights is opaque and does not affect the schedule sizing). -/
def bert_get_optimizer (lr : β) (num_train_optimization_steps : Nat)
    (warmup_proportion : Option γ) : BertOptimizer β γ :=
  match warmup_proportion with
  | none => .plain lr
  | some w => .warmupLinear lr num_train_optimization_steps w

/-- The `num_train_optimization_steps` computation of
`BERTTokenClassifier.fit`:
`int(len(token_ids) / batch_size) * num_epochs`.  Python's
`int()` of a nonnegative true division truncates toward zero, i.e. floor,
which is `Nat` division (values are small enough that float rounding is not
an issue for the claims, which are themselves stated with exact floor). -/
def bert_num_train_optimization_steps (token_ids : List (List Nat))
    (batch_size num_epochs : Nat) : Nat :=
  token_ids.length / batch_size * num_epochs

/-- The optimizer actually built by `BERTTokenClassifier.fit`. -/
def bert_fit_optimizer (lr : β) (warmup_proportion : Option γ)
    (token_ids : List (List Nat)) (batch_size num_epochs : Nat) :
    BertOptimizer β γ :=
  bert_get_optimizer lr
    (bert_num_train_optimization_steps token_ids batch_size num_epochs)
    warmup_proportion

/-- `BERTTokenClassifier.predict` from
`utils_nlp/bert/token_classification.py`.

* `fwd` abstracts the model's rowwise forward pass: for one row of token ids
  and its attention mask it yields the `seq_len × num_labels` logit matrix
  (a batched forward pass computes rows independently, so the batch logits
  are the rowwise logits of the batch's rows).
* The dataloader is sequential, so the batch sequence is `chunks` of the rows
  in input order; `predictions.extend` over the batches concatenates them.
* `true_label_available` is first assigned *inside* the batch loop; with zero
  batches the trailing `if true_label_available:` raises `NameError` —
  embedded as the error case.
* The returned `Bool` records the final value of `true_label_available`,
  i.e. whether the evaluation-loss branch ran (`if labels:` — truthiness, so
  an empty label list behaves like `None`).  The loss value itself is only
  printed, never returned, so only this flag is observable. -/
def bert_predict (fwd : List Nat → List Nat → List (List Int))
    (token_ids input_mask : List (List Nat))
    (labels : Option (List (List Nat))) (batch_size : Nat) :
    Except PyErr (List (List Nat) × Bool) :=
  let rows := token_ids.zip input_mask
  let batches := chunks batch_size rows
  if batches.isEmpty then .error (.nameError "true_label_available")
  else
    let predictions := (batches.map
      (fun b => b.map (fun r => (fwd r.1 r.2).map argmaxIdx))).flatten
    .ok (predictions, listTruthy labels)

/-- The `WarmupLinearSchedule` built by `XLNetSequenceClassifier.fit`. -/
structure XlnetSchedule where
  warmup_steps : Nat
  t_total : Nat
deriving DecidableEq

/-- The `num_train_optimization_steps` computation of
`XLNetSequenceClassifier.fit`: `len(train_dataloader) * num_epochs`, where
the dataloader's length is its number of batches — the chunk count of the
dataset's rows (one row per entry of `token_ids`; `drop_last` defaults to
`False`, so a final partial batch counts). -/
def xlnet_num_train_optimization_steps (token_ids : List (List Nat))
    (batch_size num_epochs : Nat) : Nat :=
  (chunks batch_size token_ids).length * num_epochs

/-- The schedule built by `XLNetSequenceClassifier.fit`:
`WarmupLinearSchedule(optimizer, warmup_steps=self.warmup_steps,
t_total=num_train_optimization_steps)`. -/
def xlnet_fit_schedule (token_ids : List (List Nat))
    (batch_size num_epochs warmup_steps : Nat) : XlnetSchedule :=
  ⟨warmup_steps, xlnet_num_train_optimization_steps token_ids batch_size num_epochs⟩

/-- `XLNetSequenceClassifier.predict` from
`utils_nlp/models/xlnet/sequence_classification.py`.

* `fwd` abstracts the rowwise forward pass (ids, token-type ids, mask →
  logits over classes); `np.concatenate` then `argmax(axis=1)` yields one
  class per row.
* `range(0, len(token_ids), batch_size)` with `batch_size = 0` raises
  `ValueError`.
* With an empty input the loop body never runs and `np.concatenate([])`
  raises `ValueError`.
* Otherwise the first iteration executes
  `torch.tensor(token_type_ids[start:end], ...)` *unconditionally*; when
  `token_type_ids` is `None` this subscript raises `TypeError` — the
  docstring calls the argument optional, but the code crashes without it.
* When `probabilities=True` the source also returns a softmax array
  (floating point, not embedded); the predicted classes are identical, and
  only they are modelled. -/
def xlnet_predict (fwd : List Nat → List Nat → List Nat → List Int)
    (token_ids input_mask : List (List Nat))
    (token_type_ids : Option (List (List Nat))) (batch_size : Nat)
    (probabilities : Bool) : Except PyErr (List Nat) :=
  if batch_size = 0 then .error (.valueError "range() arg 3 must not be zero")
  else if token_ids.isEmpty then
    .error (.valueError "need at least one array to concatenate")
  else
    match token_type_ids with
    | none => .error (.typeError "'NoneType' object is not subscriptable")
    | some tt =>
      let rows := token_ids.zip (input_mask.zip tt)
      let batches := chunks batch_size rows
      let preds := (batches.map
        (fun b => b.map (fun r => fwd r.1 r.2.1 r.2.2))).flatten
      let classes := preds.map argmaxIdx
      .ok classes

/-- A file-system state: an association of paths to file sizes in bytes. -/
abbrev FS := List (String × Nat)

/-- Size of the file at `p`, `none` when no such file exists
(`os.path.exists` / `os.stat(...).st_size`). -/
def fsLookup (fs : FS) (p : String) : Option Nat :=
  match fs with
  | [] => none
  | q :: rest => if q.1 = p then some q.2 else fsLookup rest p

/-- Record a file of size `n` at path `p` (the streaming write of the
download loop, observed only through its final size). -/
def fsInsert (fs : FS) (p : String) (n : Nat) : FS := (p, n) :: fs

/-- `os.remove(p)`. -/
def fsRemove (fs : FS) (p : String) : FS :=
  match fs with
  | [] => []
  | q :: rest => if q.1 = p then fsRemove rest p else q :: fsRemove rest p

/-- The default file name of `maybe_download`: `url.split("/")[-1]`. -/
def urlLastComponent (url : String) : String :=
  (splitOnChar '/' url).getLast?.getD ""

/-- `maybe_download` from `utils_nlp/dataset/url_utils.py`, over an explicit
file-system state.  `downloadSize` abstracts the network: the number of bytes
the streaming GET writes for a given url.  `os.path.join` is embedded as
separator concatenation (absolute-path overriding is outside the claims).
Behaviour: skip the download when the path already exists; when
`expected_bytes` is given, `os.stat` the path and, on a size mismatch,
`os.remove` the file *before* raising `IOError("Failed to verify <path>")`;
otherwise return the path. -/
def maybe_download (downloadSize : String → Nat) (url : String)
    (filename : Option String) (work_directory : String)
    (expected_bytes : Option Nat) (fs : FS) : Except String String × FS :=
  let filename := filename.getD (urlLastComponent url)
  let filepath := work_directory ++ "/" ++ filename
  let fs1 :=
    if (fsLookup fs filepath).isSome then fs
    else fsInsert fs filepath (downloadSize url)
  match expected_bytes with
  | some e =>
    if (fsLookup fs1 filepath).getD 0 ≠ e then
      (.error ("Failed to verify " ++ filepath), fsRemove fs1 filepath)
    else
      (.ok filepath, fs1)
  | none => (.ok filepath, fs1)

/-- The `input_ids_all` component of a `preprocess_ner_tokens` result. -/
def nerIds : Except PyErr NerResult → List (List Nat)
  | .ok (.three i _ _) => i
  | .ok (.four i _ _ _) => i
  | .error _ => []

/-- The `input_mask_all` component of a `preprocess_ner_tokens` result. -/
def nerMask : Except PyErr NerResult → List (List Nat)
  | .ok (.three _ m _) => m
  | .ok (.four _ m _ _) => m
  | .error _ => []

/-- The `label_ids_all` component of a `preprocess_ner_tokens` result
(`[]` unless the 4-tuple variant was returned). -/
def nerLabelIds : Except PyErr NerResult → List (List PyLabel)
  | .ok (.four _ _ _ l) => l
  | _ => []

/-- The per-sentence rows of `preprocess_ner_tokens` when labels are
supplied: one `processSentence` result per `zip(text, labels)` pair. -/
def nerRows (conv : String → Nat) (tok : String → List String) (ttag : String)
    (max_len : Nat) (text : List String) (ls : List (List String)) :
    List SentOut :=
  (text.zip ls).map (fun p => processSentence conv tok ttag max_len p.1 p.2)

/-- The (word, tag) pairs of sentence `j` as zipped by
`preprocess_ner_tokens`'s inner loop. -/
def sentPairs (text : List String) (ls : List (List String)) (j : Nat) :
    List (String × String) :=
  (pySplit (text.getD j "")).zip (ls.getD j [])

/-- The label selected for each original word by keeping the first fragment's
entry of a fragment-aligned row `xs`: the reference "one label per word, in
word order, first fragment's value" reading of the round-trip claim. -/
def firstFrags (tok : String → List String) :
    List (String × String) → List α → List α
  | [], _ => []
  | p :: rest, xs =>
    if (tok p.1).isEmpty then firstFrags tok rest xs
    else xs.take 1 ++ firstFrags tok rest (xs.drop (tok p.1).length)

/-- Whether a `preprocess_ner_tokens` call returned normally. -/
def nerOk : Except PyErr NerResult → Bool
  | .ok _ => true
  | .error _ => false

/-- Whether a `preprocess_ner_tokens` call returned the 4-tuple variant
(with `label_ids_all` as 4th element). -/
def nerIsFour : Except PyErr NerResult → Bool
  | .ok r => r.isFour
  | .error _ => false

/-- The `filepath` computed by `maybe_download`:
`os.path.join(work_directory, filename)` with the default
`filename = url.split("/")[-1]`. -/
def downloadFilepath (url : String) (filename : Option String)
    (work_directory : String) : String :=
  work_directory ++ "/" ++ filename.getD (urlLastComponent url)

/-- The file-system state right after `maybe_download`'s conditional
download step (before the size verification): unchanged when the file
already exists, otherwise extended with the downloaded file. -/
def fsAfterFetch (downloadSize : String → Nat) (url : String)
    (filename : Option String) (work_directory : String) (fs : FS) : FS :=
  let filepath := downloadFilepath url filename work_directory
  if (fsLookup fs filepath).isSome then fs
  else fsInsert fs filepath (downloadSize url)

-- ### List helper lemmas

lemma getD_map_lt (f : α → β) {xs : List α} {i : Nat} (h : i < xs.length)
    (d' : β) (d : α) : (xs.map f).getD i d' = f (xs.getD i d) := by
  induction xs generalizing i with
  | nil => simp at h
  | cons a t ih =>
    cases i with
    | zero => simp
    | succ n =>
      simp only [List.map_cons, List.getD_cons_succ]
      exact ih (by simpa using h) 

lemma getD_map_const {xs : List α} {c : β} {i : Nat} (h : i < xs.length)
    (d : β) : (xs.map (fun _ => c)).getD i d = c := by
  induction xs generalizing i with
  | nil => simp at h
  | cons a t ih =>
    cases i with
    | zero => simp
    | succ n =>
      simp only [List.map_cons, List.getD_cons_succ]
      exact ih (by simpa using h)

lemma getD_take {xs : List α} {n i : Nat} (h : i < n) (d : α) :
    (xs.take n).getD i d = xs.getD i d := by
  induction xs generalizing n i with
  | nil => simp
  | cons a t ih =>
    cases n with
    | zero => omega
    | succ m =>
      cases i with
      | zero => simp
      | succ k =>
        simp only [List.take_succ_cons, List.getD_cons_succ]
        exact ih (Nat.lt_of_succ_lt_succ h)

lemma getD_drop (xs : List α) (k i : Nat) (d : α) :
    (xs.drop k).getD i d = xs.getD (k + i) d := by
  induction xs generalizing k with
  | nil => simp
  | cons a t ih =>
    cases k with
    | zero => simp
    | succ m =>
      simp only [List.drop_succ_cons]
      rw [ih m]
      have : m + 1 + i = (m + i) + 1 := by omega
      rw [this, List.getD_cons_succ]

lemma getD_replicate_lt {c : α} {k i : Nat} (h : i < k) (d : α) :
    (List.replicate k c).getD i d = c := by
  induction k generalizing i with
  | zero => omega
  | succ m ih =>
    cases i with
    | zero => simp [List.replicate_succ]
    | succ j =>
      simp only [List.replicate_succ, List.getD_cons_succ]
      exact ih (by omega)

lemma wordLabels_length (ttag tag : String) (xs : List String) :
    (wordLabels ttag tag xs).length = xs.length := by
  cases xs <;> simp [wordLabels]

lemma totalFrags_cons (tok : String → List String) (p : String × String)
    (rest : List (String × String)) :
    totalFrags tok (p :: rest) = (tok p.1).length + totalFrags tok rest := by
  simp [totalFrags]

lemma build_fst_length (tok : String → List String) (ttag : String)
    (pairs : List (String × String)) :
    (buildTokensLabels tok ttag pairs).1.length = totalFrags tok pairs := by
  induction pairs with
  | nil => simp [buildTokensLabels, totalFrags]
  | cons p rest ih =>
    simp [buildTokensLabels, totalFrags_cons, ih]

lemma build_snd_length (tok : String → List String) (ttag : String)
    (pairs : List (String × String)) :
    (buildTokensLabels tok ttag pairs).2.length = totalFrags tok pairs := by
  induction pairs with
  | nil => simp [buildTokensLabels, totalFrags]
  | cons p rest ih =>
    simp [buildTokensLabels, totalFrags_cons, wordLabels_length, ih]

lemma fragOffset_zero (tok : String → List String)
    (pairs : List (String × String)) : fragOffset tok pairs 0 = 0 := by
  simp [fragOffset, totalFrags]

lemma fragOffset_cons_succ (tok : String → List String) (p : String × String)
    (rest : List (String × String)) (w : Nat) :
    fragOffset tok (p :: rest) (w + 1) =
      (tok p.1).length + fragOffset tok rest w := by
  simp [fragOffset, List.take_succ_cons, totalFrags_cons]

lemma fragOffset_add_le (tok : String → List String)
    (pairs : List (String × String)) (w : Nat) (hw : w < pairs.length) :
    fragOffset tok pairs w + (tok ((pairs.getD w ("", "")).1)).length ≤
      totalFrags tok pairs := by
  induction pairs generalizing w with
  | nil => simp at hw
  | cons p rest ih =>
    cases w with
    | zero =>
      rw [fragOffset_zero, totalFrags_cons]
      simp
    | succ w' =>
      rw [fragOffset_cons_succ, totalFrags_cons]
      have := ih w' (by simpa using hw)
      simp only [List.getD_cons_succ]
      omega

lemma build_labels_getD (tok : String → List String) (ttag : String)
    (pairs : List (String × String)) (w i : Nat) (d : String)
    (hw : w < pairs.length)
    (hi : i < (tok ((pairs.getD w ("", "")).1)).length) :
    (buildTokensLabels tok ttag pairs).2.getD (fragOffset tok pairs w + i) d =
      if i = 0 then (pairs.getD w ("", "")).2 else ttag := by
  induction pairs generalizing w with
  | nil => simp at hw
  | cons p rest ih =>
    cases w with
    | zero =>
      rw [fragOffset_zero]
      simp only [List.getD_cons_zero] at hi ⊢
      show (wordLabels ttag p.2 (tok p.1) ++
        (buildTokensLabels tok ttag rest).2).getD (0 + i) d = _
      rw [Nat.zero_add]
      rw [List.getD_append _ _ _ _ (by rw [wordLabels_length]; exact hi)]
      rcases hsubs : tok p.1 with _ | ⟨s, ss⟩
      · rw [hsubs] at hi; simp at hi
      · rw [hsubs] at hi
        cases i with
        | zero => simp [wordLabels]
        | succ n =>
          simp only [wordLabels, List.getD_cons_succ]
          rw [getD_map_const (by simpa using hi)]
          simp
    | succ w' =>
      rw [fragOffset_cons_succ]
      simp only [List.getD_cons_succ] at hi ⊢
      show (wordLabels ttag p.2 (tok p.1) ++
        (buildTokensLabels tok ttag rest).2).getD _ d = _
      rw [Nat.add_assoc,
        List.getD_append_right _ _ _ _ (by rw [wordLabels_length]; omega)]
      rw [wordLabels_length]
      have : (tok p.1).length + (fragOffset tok rest w' + i) - (tok p.1).length =
        fragOffset tok rest w' + i := by omega
      rw [this]
      exact ih w' (by simpa using hw) hi

lemma stripPad_nil_mask (xs : List α) : stripPad xs [] = [] := by
  simp [stripPad]

lemma stripPad_zeros (xs : List α) (k : Nat) :
    stripPad xs (List.replicate k 0) = [] := by
  induction xs generalizing k with
  | nil => simp [stripPad]
  | cons a t ih =>
    cases k with
    | zero => simp [stripPad]
    | succ m =>
      simp only [List.replicate_succ, stripPad, List.zip_cons_cons,
        List.filter_cons]
      simpa [stripPad] using ih m

lemma stripPad_ones_zeros {xs : List α} {n k : Nat}
    (h : xs.length = n + k) :
    stripPad xs (List.replicate n 1 ++ List.replicate k 0) = xs.take n := by
  induction n generalizing xs with
  | zero => simpa using stripPad_zeros xs k
  | succ m ih =>
    rcases xs with _ | ⟨a, t⟩
    · simp only [List.length_nil] at h
      omega
    · simp only [List.replicate_succ, List.cons_append, stripPad,
        List.zip_cons_cons, List.filter_cons, List.take_succ_cons]
      simpa [stripPad] using ih (by
        simp only [List.length_cons] at h
        omega)

lemma maskFilter_nil_mask (xs : List α) : maskFilter xs [] = [] := by
  simp [maskFilter]

lemma maskFilter_cons (x : α) (xs : List α) (b : Bool) (m : List Bool) :
    maskFilter (x :: xs) (b :: m) =
      (if b then [x] else []) ++ maskFilter xs m := by
  cases b <;> simp [maskFilter, List.filter_cons]

lemma maskFilter_append {xs ys : List α} {m m2 : List Bool}
    (h : xs.length = m.length) :
    maskFilter (xs ++ ys) (m ++ m2) = maskFilter xs m ++ maskFilter ys m2 := by
  simp [maskFilter, List.zip_append h, List.filter_append]

lemma maskFilter_all_false {xs : List α} {m : List Bool}
    (h : ∀ b ∈ m, b = false) : maskFilter xs m = [] := by
  induction xs generalizing m with
  | nil => simp [maskFilter]
  | cons a t ih =>
    rcases m with _ | ⟨b, mr⟩
    · simp [maskFilter]
    · have hb : b = false := h b (by simp)
      subst hb
      rw [maskFilter_cons]
      simpa using ih (fun c hc => h c (by simp [hc]))

lemma maskFilter_build_eq_firstFrags (tok : String → List String)
    (ttag : String) (pairs : List (String × String)) (xs : List α)
    (hx : xs.length = totalFrags tok pairs)
    (hlab : ∀ p ∈ pairs, p.2 ≠ ttag) :
    maskFilter xs
      ((buildTokensLabels tok ttag pairs).2.map (fun l => l != ttag)) =
      firstFrags tok pairs xs := by
  induction pairs generalizing xs with
  | nil => simp [buildTokensLabels, firstFrags, maskFilter]
  | cons p rest ih =>
    have hxlen : xs.length = (tok p.1).length + totalFrags tok rest := by
      rw [hx, totalFrags_cons]
    have hsplit : xs = xs.take (tok p.1).length ++ xs.drop (tok p.1).length :=
      (List.take_append_drop _ xs).symm
    show maskFilter xs ((wordLabels ttag p.2 (tok p.1) ++
      (buildTokensLabels tok ttag rest).2).map (fun l => l != ttag)) = _
    rw [List.map_append]
    conv_lhs => rw [hsplit]
    rw [maskFilter_append (by
      rw [List.length_take, List.length_map, wordLabels_length]
      omega)]
    have hrec : maskFilter (xs.drop (tok p.1).length)
        ((buildTokensLabels tok ttag rest).2.map (fun l => l != ttag)) =
        firstFrags tok rest (xs.drop (tok p.1).length) := by
      refine ih _ ?_ (fun q hq => hlab q (by simp [hq]))
      rw [List.length_drop]
      omega
    rw [hrec]
    rcases hsubs : tok p.1 with _ | ⟨s, ss⟩
    · simp only [hsubs, wordLabels, List.length_nil, List.take_zero,
        List.drop_zero, List.map_nil, maskFilter_nil_mask, List.nil_append]
      simp [firstFrags, hsubs]
    · have hlen1 : 0 < xs.length := by
        rw [hxlen, hsubs]
        simp [Nat.succ_add]
      rcases xs with _ | ⟨a, t⟩
      · simp at hlen1
      · have hp2 : (p.2 != ttag) = true := by
          have := hlab p (by simp)
          simpa using this
        simp only [hsubs, wordLabels, List.length_cons, List.map_cons,
          List.take_succ_cons, maskFilter_cons, hp2, if_true]
        have hfalse : maskFilter (t.take ss.length)
            ((ss.map (fun _ => ttag)).map (fun l => l != ttag)) = [] := by
          refine maskFilter_all_false (fun b hb => ?_)
          simp only [List.map_map, List.mem_map] at hb
          rcases hb with ⟨c, _, hc⟩
          simpa using hc.symm
        rw [hfalse]
        simp only [firstFrags, hsubs, List.isEmpty_cons, List.length_cons]
        simp [List.take_succ_cons, List.drop_succ_cons]

lemma firstFrags_length (tok : String → List String)
    (pairs : List (String × String)) (xs : List α)
    (hne : ∀ p ∈ pairs, tok p.1 ≠ [])
    (hx : totalFrags tok pairs ≤ xs.length) :
    (firstFrags tok pairs xs).length = pairs.length := by
  induction pairs generalizing xs with
  | nil => simp [firstFrags]
  | cons p rest ih =>
    have hp : tok p.1 ≠ [] := hne p (by simp)
    have hk : 0 < (tok p.1).length := List.length_pos.mpr hp
    have hx' : (tok p.1).length + totalFrags tok rest ≤ xs.length := by
      rw [← totalFrags_cons]; exact hx
    simp only [firstFrags, List.isEmpty_iff]
    rw [if_neg hp]
    rw [List.length_append]
    have h1 : (xs.take 1).length = 1 := by
      rw [List.length_take]
      omega
    rw [h1, ih _ (fun q hq => hne q (by simp [hq])) (by
      rw [List.length_drop]; omega)]
    simp only [List.length_cons]
    omega

lemma firstFrags_getD (tok : String → List String)
    (pairs : List (String × String)) (xs : List α) (j : Nat) (d : α)
    (hne : ∀ p ∈ pairs, tok p.1 ≠ [])
    (hx : totalFrags tok pairs ≤ xs.length)
    (hj : j < pairs.length) :
    (firstFrags tok pairs xs).getD j d = xs.getD (fragOffset tok pairs j) d := by
  induction pairs generalizing xs j with
  | nil => simp at hj
  | cons p rest ih =>
    have hp : tok p.1 ≠ [] := hne p (by simp)
    have hk : 0 < (tok p.1).length := List.length_pos.mpr hp
    have hx' : (tok p.1).length + totalFrags tok rest ≤ xs.length := by
      rw [← totalFrags_cons]; exact hx
    have hxpos : 0 < xs.length := by omega
    rcases xs with _ | ⟨a, t⟩
    · simp at hxpos
    · simp only [firstFrags, List.isEmpty_iff]
      rw [if_neg hp]
      simp only [List.take_succ_cons, List.take_zero]
      cases j with
      | zero =>
        rw [fragOffset_zero]
        simp
      | succ j' =>
        rw [fragOffset_cons_succ]
        simp only [List.cons_append, List.nil_append, List.getD_cons_succ]
        rw [ih _ j' (fun q hq => hne q (by simp [hq])) (by
          rw [List.length_drop]
          simp only [List.length_cons] at hx' ⊢
          omega) (by simpa using hj)]
        rw [getD_drop]

lemma zipMap_getD (f : α × β → γ) (as : List α) (bs : List β) (j : Nat)
    (da : α) (db : β) (d : γ) (h1 : j < as.length) (h2 : j < bs.length) :
    ((as.zip bs).map f).getD j d = f (as.getD j da, bs.getD j db) := by
  induction as generalizing bs j with
  | nil => simp at h1
  | cons a t ih =>
    rcases bs with _ | ⟨b, u⟩
    · simp at h2
    · cases j with
      | zero => simp
      | succ n =>
        simp only [List.zip_cons_cons, List.map_cons, List.getD_cons_succ]
        exact ih u n (by simpa using h1) (by simpa using h2)

lemma processSentence_no_trunc (conv : String → Nat)
    (tok : String → List String) (ttag : String) (max_len : Nat) (t : String)
    (t_labels : List String)
    (h : totalFrags tok ((pySplit t).zip t_labels) ≤ max_len) :
    processSentence conv tok ttag max_len t t_labels =
      ⟨(buildTokensLabels tok ttag ((pySplit t).zip t_labels)).1.map conv ++
          List.replicate (max_len - totalFrags tok ((pySplit t).zip t_labels)) 0,
        List.replicate (totalFrags tok ((pySplit t).zip t_labels)) 1 ++
          List.replicate (max_len - totalFrags tok ((pySplit t).zip t_labels)) 0,
        ((buildTokensLabels tok ttag ((pySplit t).zip t_labels)).2 ++
          List.replicate (max_len - totalFrags tok ((pySplit t).zip t_labels)) "O").map
          (fun l => l != ttag),
        (buildTokensLabels tok ttag ((pySplit t).zip t_labels)).2 ++
          List.replicate (max_len - totalFrags tok ((pySplit t).zip t_labels)) "O"⟩ := by
  have hn := build_fst_length tok ttag ((pySplit t).zip t_labels)
  simp only [processSentence]
  rw [if_neg (by omega), if_neg (by omega)]
  simp [List.length_map, hn]

lemma preprocess_ner_some_eq (conv : String → Nat)
    (tok : String → List String) (text : List String) (max_len : Nat)
    (ls : List (List String)) (ttag : String)
    (hml : max_len ≤ BERT_MAX_LEN) :
    preprocess_ner_tokens conv tok text max_len (some ls) none ttag =
      .ok (.four
        ((nerRows conv tok ttag max_len text ls).map (fun r => r.input_ids))
        ((nerRows conv tok ttag max_len text ls).map (fun r => r.input_mask))
        ((nerRows conv tok ttag max_len text ls).map (fun r => r.trailing))
        ((nerRows conv tok ttag max_len text ls).map
          (fun r => r.labels_padded.map PyLabel.str))) := by
  simp [preprocess_ner_tokens, nerRows, Nat.not_lt.mpr hml]

lemma nerRows_length (conv : String → Nat) (tok : String → List String)
    (ttag : String) (max_len : Nat) (text : List String)
    (ls : List (List String)) :
    (nerRows conv tok ttag max_len text ls).length =
      min text.length ls.length := by
  simp [nerRows]

lemma nerRows_getD (conv : String → Nat) (tok : String → List String)
    (ttag : String) (max_len : Nat) (text : List String)
    (ls : List (List String)) (j : Nat) (d : SentOut)
    (h1 : j < text.length) (h2 : j < ls.length) :
    (nerRows conv tok ttag max_len text ls).getD j d =
      processSentence conv tok ttag max_len (text.getD j "") (ls.getD j []) := by
  simpa [nerRows] using
    zipMap_getD (fun p => processSentence conv tok ttag max_len p.1 p.2)
      text ls j "" [] d h1 h2

lemma chunksAux_flatten {bs : Nat} (hbs : 0 < bs) :
    ∀ (fuel : Nat) (xs : List α), xs.length ≤ fuel →
      (chunksAux bs fuel xs).flatten = xs := by
  intro fuel
  induction fuel with
  | zero =>
    intro xs h
    have : xs = [] := List.length_eq_zero.mp (by omega)
    simp [this, chunksAux]
  | succ m ih =>
    intro xs h
    rcases xs with _ | ⟨a, t⟩
    · simp [chunksAux]
    · simp only [chunksAux, List.flatten_cons]
      rw [ih _ (by
        rw [List.length_drop]
        simp only [List.length_cons] at h ⊢
        omega)]
      exact List.take_append_drop _ _

lemma chunks_flatten {bs : Nat} (hbs : 0 < bs) (xs : List α) :
    (chunks bs xs).flatten = xs := by
  simp only [chunks]
  rw [if_neg (by omega)]
  exact chunksAux_flatten hbs xs.length xs le_rfl

lemma chunksAux_length {bs : Nat} (hbs : 0 < bs) :
    ∀ (fuel : Nat) (xs : List α), xs.length ≤ fuel →
      (chunksAux bs fuel xs).length = (xs.length + bs - 1) / bs := by
  intro fuel
  induction fuel with
  | zero =>
    intro xs h
    have hx : xs = [] := List.length_eq_zero.mp (by omega)
    subst hx
    simp only [chunksAux, List.length_nil]
    symm
    apply Nat.div_eq_of_lt
    omega
  | succ m ih =>
    intro xs h
    rcases xs with _ | ⟨a, t⟩
    · simp only [chunksAux, List.length_nil]
      symm
      apply Nat.div_eq_of_lt
      omega
    · simp only [chunksAux, List.length_cons]
      rw [ih _ (by
        rw [List.length_drop]
        simp only [List.length_cons] at h ⊢
        omega)]
      rw [List.length_drop]
      simp only [List.length_cons]
      have hrw : t.length + 1 + bs - 1 = (t.length + 1 - 1) + bs := by omega
      rw [hrw, Nat.add_div_right _ hbs]
      rcases le_or_lt bs (t.length + 1) with hc | hc
      · have h2 : t.length + 1 - bs + bs - 1 = t.length + 1 - 1 := by omega
        rw [h2]
      · have h0 : t.length + 1 - bs = 0 := by omega
        rw [h0]
        simp only [Nat.zero_add]
        rw [Nat.div_eq_of_lt (by omega), Nat.div_eq_of_lt (by omega)]

lemma fsLookup_fsRemove (fs : FS) (p : String) :
    fsLookup (fsRemove fs p) p = none := by
  induction fs with
  | nil => simp [fsRemove, fsLookup]
  | cons q rest ih =>
    by_cases hq : q.1 = p
    · simp [fsRemove, hq, ih]
    · simp [fsRemove, hq, fsLookup, ih]

-- ### C1 — `preprocess_classification_tokens`: padding and mask shape

/-- C1 (amended: `2 ≤ max_len` is required; for `max_len < 2` the Python
slice `x[0:max_len-2]` has a negative end and the output length is not
`max_len`, see `c1_counterexample`).  For `2 ≤ max_len ≤ 512` and an input
row shorter than `max_len`: the id row has exactly `max_len` entries, every
position beyond the marker-wrapped content (`min(len, max_len-2) + 2`
entries) is the pad id 0, the mask row is `min 1 id` pointwise, and hence is
1 exactly at nonzero ids. -/
theorem c1_classification_pad_and_mask (conv : String → Nat)
    (tokens : List (List String)) (max_len j : Nat)
    (h2 : 2 ≤ max_len) (h512 : max_len ≤ BERT_MAX_LEN)
    (hj : j < tokens.length)
    (hshort : (tokens.getD j []).length < max_len) :
    let out := preprocess_classification_tokens conv tokens max_len
    let c := min ((tokens.getD j []).length) (max_len - 2) + 2
    ((out.1.getD j []).length = max_len) ∧
    ((out.1.getD j []).drop c = List.replicate (max_len - c) 0) ∧
    (out.2.getD j [] = (out.1.getD j []).map (fun x => min 1 x)) ∧
    (∀ i, i < max_len → (out.2.getD j []).getD i 0 =
      if (out.1.getD j []).getD i 0 = 0 then 0 else 1) := by
  have hclamp : ¬ max_len > BERT_MAX_LEN := Nat.not_lt.mpr h512
  have hif : (if max_len > BERT_MAX_LEN then BERT_MAX_LEN else max_len) =
      max_len := if_neg hclamp
  have hslice : ∀ x : List String, pySliceTo x ((max_len : Int) - 2) =
      x.take (max_len - 2) := by
    intro x
    simp only [pySliceTo]
    rw [if_neg (by omega)]
    congr 1
    omega
  have hrow1 : (preprocess_classification_tokens conv tokens max_len).1.getD j [] =
      ((["[CLS]"] ++ (tokens.getD j []).take (max_len - 2) ++ ["[SEP]"]).map conv)
        ++ List.replicate (max_len -
          ((["[CLS]"] ++ (tokens.getD j []).take (max_len - 2) ++ ["[SEP]"]).map conv).length) 0 := by
    simp only [preprocess_classification_tokens, hif, List.map_map]
    rw [getD_map_lt _ hj [] []]
    simp only [Function.comp]
    rw [hslice]
  have hmask : (preprocess_classification_tokens conv tokens max_len).2.getD j [] =
      ((preprocess_classification_tokens conv tokens max_len).1.getD j []).map
        (fun x => min 1 x) := by
    simp only [preprocess_classification_tokens, hif, List.map_map]
    rw [getD_map_lt _ hj [] [], getD_map_lt _ hj [] []]
    simp only [Function.comp_apply]
  have hclen :
      ((["[CLS]"] ++ (tokens.getD j []).take (max_len - 2) ++ ["[SEP]"]).map conv).length =
        min ((tokens.getD j []).length) (max_len - 2) + 2 := by
    simp [List.length_take]
    omega
  have hcle : min ((tokens.getD j []).length) (max_len - 2) + 2 ≤ max_len := by
    have := Nat.min_le_right ((tokens.getD j []).length) (max_len - 2)
    omega
  have hlen1 : ((preprocess_classification_tokens conv tokens max_len).1.getD j []).length =
      max_len := by
    rw [hrow1]
    simp only [List.length_append, List.length_replicate, hclen]
    omega
  refine ⟨hlen1, ?_, hmask, ?_⟩
  · rw [hrow1, ← hclen, List.drop_left, hclen]
  · intro i hi
    rw [hmask, getD_map_lt _ (by omega) 0 0]
    rcases hx : ((preprocess_classification_tokens conv tokens max_len).1.getD j []).getD i 0
      with _ | x
    · simp
    · simp [Nat.min_def]

/-- C1 counterexample: at `max_len = 1` (≤ 512) with the single input `[]`
(shorter than `max_len`), the id row is `[conv "[CLS]", conv "[SEP]"]` — two
entries, not `max_len = 1` — because the Python slice `x[0:-1]` does not
truncate an empty body and no clamping to `max_len` happens after the
markers are added. -/
theorem c1_counterexample :
    ((preprocess_classification_tokens (fun _ => 7) [[]] 1).1.getD 0 []).length = 2 ∧
    (2 : Nat) ≠ 1 := by
  exact ⟨rfl, by decide⟩

/-- C1 witness: the amended theorem applied at `conv = String.length`,
`tokens = [["hi"]]`, `max_len = 5`, `j = 0`. -/
theorem c1_witness :
    (2 ≤ 5 ∧ 5 ≤ BERT_MAX_LEN ∧ 0 < [["hi"]].length ∧
      ([["hi"]].getD 0 []).length < 5) ∧
    (let out := preprocess_classification_tokens (fun s => s.length) [["hi"]] 5
     let c := min ((([["hi"]] : List (List String)).getD 0 []).length) (5 - 2) + 2
     ((out.1.getD 0 []).length = 5) ∧
     ((out.1.getD 0 []).drop c = List.replicate (5 - c) 0) ∧
     (out.2.getD 0 [] = (out.1.getD 0 []).map (fun x => min 1 x)) ∧
     (∀ i, i < 5 → (out.2.getD 0 []).getD i 0 =
       if (out.1.getD 0 []).getD i 0 = 0 then 0 else 1)) :=
  ⟨⟨by decide, by decide, by decide, by decide⟩,
    c1_classification_pad_and_mask (fun s => s.length) [["hi"]] 5 0
      (by decide) (by decide) (by decide) (by decide)⟩

-- ### C2 — max_len clamping above the hard ceiling

/-- C2: evaluation of both preprocessing operations above the ceiling.  The
classification variant clamps: any `max_len > 512` behaves exactly like 512.
The NER variant instead raises `NameError`: its clamping branch executes
`logger.warning(...)` but the module only defines `module_logger`, so the
call never succeeds — the claim's "the call succeeds" is contradicted by the
code (a slip: the spec's "log and override" is clearly the intent). -/
theorem c2_clamp_and_ner_logger_error (conv : String → Nat)
    (tok : String → List String) (text : List String)
    (tokens : List (List String)) (labels : Option (List (List String)))
    (lm : Option (String → Nat)) (ttag : String) (ml : Nat)
    (h : BERT_MAX_LEN < ml) :
    preprocess_ner_tokens conv tok text ml labels lm ttag =
      .error (.nameError "logger") ∧
    preprocess_classification_tokens conv tokens ml =
      preprocess_classification_tokens conv tokens BERT_MAX_LEN := by
  constructor
  · simp [preprocess_ner_tokens, h]
  · have h1 : (if ml > BERT_MAX_LEN then BERT_MAX_LEN else ml) = BERT_MAX_LEN :=
      if_pos h
    have h2 : (if BERT_MAX_LEN > BERT_MAX_LEN then BERT_MAX_LEN else BERT_MAX_LEN) =
        BERT_MAX_LEN := by simp
    simp only [preprocess_classification_tokens, h1, h2]

/-- C2 witness: applied at `ml = 513` with concrete inputs; the NER call
fails with the unbound-name error while the classification call equals the
512 call. -/
theorem c2_witness :
    BERT_MAX_LEN < 513 ∧
    (preprocess_ner_tokens (fun s => s.length) (fun w => [w]) ["hi"] 513 none
        none "X" = .error (.nameError "logger") ∧
      preprocess_classification_tokens (fun s => s.length) [["hi"]] 513 =
        preprocess_classification_tokens (fun s => s.length) [["hi"]]
          BERT_MAX_LEN) :=
  ⟨by decide,
    c2_clamp_and_ner_logger_error (fun s => s.length) (fun w => [w]) ["hi"]
      [["hi"]] none none "X" 513 (by decide)⟩

-- ### C6 — predict row alignment

/-- C6: the sequence-level variant contradicts the claim.  Called per its
documented signature without `token_type_ids` (an explicitly optional
argument, "only needed for two-sentence tasks"), `XLNetSequenceClassifier.predict`
executes `torch.tensor(token_type_ids[start:end], ...)` unconditionally and
crashes subscripting `None` on the first batch instead of returning one
predicted class per input row. -/
theorem c6_xlnet_predict_crashes_without_token_type_ids :
    xlnet_predict (fun _ _ _ => [0]) [[1, 2]] [[1, 1]] none 8 false =
      .error (.typeError "'NoneType' object is not subscriptable") := rfl

-- ### C7 — warm-up schedule sizing

/-- C7 (amended): the token-level variant sizes the schedule to
`⌊num_rows / batch_size⌋ × num_epochs` and builds a plain fixed-rate
optimizer when `warmup_proportion` is omitted — as claimed.  The
sequence-level variant, however, sizes its schedule to
`len(train_dataloader) × num_epochs = ⌈num_rows / batch_size⌉ × num_epochs`
(the dataloader keeps the final partial batch), not the floor. -/
theorem c7_optimizer_step_totals {β γ : Type} (lr : β) (wp : γ)
    (token_ids : List (List Nat)) (bs epochs warmup_steps : Nat)
    (hbs : 0 < bs) :
    bert_fit_optimizer lr (some wp) token_ids bs epochs =
      .warmupLinear lr (token_ids.length / bs * epochs) wp ∧
    bert_fit_optimizer lr (none : Option γ) token_ids bs epochs =
      BertOptimizer.plain lr ∧
    (xlnet_fit_schedule token_ids bs epochs warmup_steps).t_total =
      (token_ids.length + bs - 1) / bs * epochs := by
  refine ⟨rfl, rfl, ?_⟩
  simp only [xlnet_fit_schedule, xlnet_num_train_optimization_steps, chunks]
  rw [if_neg (by omega)]
  rw [chunksAux_length hbs token_ids.length token_ids le_rfl]

/-- C7 counterexample: one row, batch size 8, one epoch.  The claim's
`⌊1/8⌋ × 1 = 0` (the token-level sizing) disagrees with the sequence-level
schedule's `t_total = 1` (one partial batch). -/
theorem c7_counterexample :
    (xlnet_fit_schedule [[1]] 8 1 0).t_total = 1 ∧
    bert_num_train_optimization_steps [[1]] 8 1 = 0 ∧
    (xlnet_fit_schedule [[1]] 8 1 0).t_total ≠
      bert_num_train_optimization_steps [[1]] 8 1 := by
  decide

/-- C7 witness: the amended theorem applied at two rows, batch size 8, three
epochs. -/
theorem c7_witness :
    0 < 8 ∧
    (bert_fit_optimizer (0 : Nat) (some (1 : Nat)) [[1], [2]] 8 3 =
        .warmupLinear 0 ([[1], [2]].length / 8 * 3) 1 ∧
      bert_fit_optimizer (0 : Nat) (none : Option Nat) [[1], [2]] 8 3 =
        BertOptimizer.plain 0 ∧
      (xlnet_fit_schedule [[1], [2]] 8 3 0).t_total =
        ([[1], [2]].length + 8 - 1) / 8 * 3) :=
  ⟨by decide, c7_optimizer_step_totals 0 1 [[1], [2]] 8 3 0 (by decide)⟩

-- ### C8 — create_data_loader sample_method validation

/-- C8: an unrecognized `sample_method` yields `ValueError` whose message
names the invalid value and lists the three accepted values, while each of
the accepted values yields a dataloader without that error. -/
theorem c8_sample_method_validation (ids mask : List (List Nat))
    (lids : Option (List (List Nat))) (bs : Nat) (m : String) :
    (m ≠ "random" → m ≠ "sequential" → m ≠ "distributed" →
      create_data_loader ids mask lids m bs =
        .error ("Invalid sample_method value: " ++ m ++
          ", accepted values are: random, sequential, and distributed")) ∧
    (m = "random" ∨ m = "sequential" ∨ m = "distributed" →
      ∃ dl, create_data_loader ids mask lids m bs = .ok dl) := by
  constructor
  · intro h1 h2 h3
    simp [create_data_loader, name_to_sampler_class, h1, h2, h3]
  · rintro (rfl | rfl | rfl) <;> exact ⟨_, rfl⟩

/-- C8 witness: `"bogus"` is rejected with the exact message naming it and
listing the accepted set; `"random"` is accepted. -/
theorem c8_witness :
    create_data_loader [[1]] [[1]] none "bogus" 2 =
      .error ("Invalid sample_method value: " ++ "bogus" ++
        ", accepted values are: random, sequential, and distributed") ∧
    ∃ dl, create_data_loader [[1]] [[1]] none "random" 2 = .ok dl :=
  ⟨(c8_sample_method_validation [[1]] [[1]] none 2 "bogus").1
      (by decide) (by decide) (by decide),
    (c8_sample_method_validation [[1]] [[1]] none 2 "random").2 (Or.inl rfl)⟩

-- ### C9 — maybe_download size verification

/-- C9: with `expected_bytes` given, a size mismatch at the download path
yields the `IOError` and the file is removed from the post-state before the
error surfaces; a size match (or an omitted `expected_bytes`) returns the
local file path with the file in place. -/
lemma maybe_download_some_eq (downloadSize : String → Nat) (url : String)
    (fn : Option String) (wd : String) (e : Nat) (fs : FS) :
    maybe_download downloadSize url fn wd (some e) fs =
      if (fsLookup (fsAfterFetch downloadSize url fn wd fs)
          (downloadFilepath url fn wd)).getD 0 ≠ e then
        (.error ("Failed to verify " ++ downloadFilepath url fn wd),
          fsRemove (fsAfterFetch downloadSize url fn wd fs)
            (downloadFilepath url fn wd))
      else
        (.ok (downloadFilepath url fn wd),
          fsAfterFetch downloadSize url fn wd fs) := rfl

lemma maybe_download_none_eq (downloadSize : String → Nat) (url : String)
    (fn : Option String) (wd : String) (fs : FS) :
    maybe_download downloadSize url fn wd none fs =
      (.ok (downloadFilepath url fn wd),
        fsAfterFetch downloadSize url fn wd fs) := rfl

theorem c9_maybe_download_verification (downloadSize : String → Nat)
    (url : String) (fn : Option String) (wd : String) (e : Nat) (fs : FS) :
    ((fsLookup (fsAfterFetch downloadSize url fn wd fs)
        (downloadFilepath url fn wd)).getD 0 ≠ e →
      (maybe_download downloadSize url fn wd (some e) fs).1 =
        .error ("Failed to verify " ++ downloadFilepath url fn wd) ∧
      fsLookup (maybe_download downloadSize url fn wd (some e) fs).2
        (downloadFilepath url fn wd) = none) ∧
    ((fsLookup (fsAfterFetch downloadSize url fn wd fs)
        (downloadFilepath url fn wd)).getD 0 = e →
      maybe_download downloadSize url fn wd (some e) fs =
        (.ok (downloadFilepath url fn wd),
          fsAfterFetch downloadSize url fn wd fs)) ∧
    maybe_download downloadSize url fn wd none fs =
      (.ok (downloadFilepath url fn wd),
        fsAfterFetch downloadSize url fn wd fs) := by
  refine ⟨?_, ?_, ?_⟩
  · intro hne
    rw [maybe_download_some_eq, if_pos hne]
    exact ⟨rfl, fsLookup_fsRemove _ _⟩
  · intro heq
    rw [maybe_download_some_eq, if_neg (not_not_intro heq)]
  · exact maybe_download_none_eq downloadSize url fn wd fs

/-- C9 witness: a 9-byte download against `expected_bytes = 10` fails with
the `IOError` and deletes the file; the same call with matching size (and
with `expected_bytes` omitted) returns the path. -/
theorem c9_witness :
    ((fsLookup (fsAfterFetch (fun _ => 9) "http://x/y.zip" none "wd" [])
        (downloadFilepath "http://x/y.zip" none "wd")).getD 0 ≠ 10 ∧
      (maybe_download (fun _ => 9) "http://x/y.zip" none "wd" (some 10) []).1 =
        .error ("Failed to verify " ++
          downloadFilepath "http://x/y.zip" none "wd") ∧
      fsLookup (maybe_download (fun _ => 9) "http://x/y.zip" none "wd"
        (some 10) []).2 (downloadFilepath "http://x/y.zip" none "wd") = none) ∧
    maybe_download (fun _ => 9) "http://x/y.zip" none "wd" none [] =
      (.ok (downloadFilepath "http://x/y.zip" none "wd"),
        fsAfterFetch (fun _ => 9) "http://x/y.zip" none "wd" []) :=
  ⟨⟨by decide,
      (c9_maybe_download_verification (fun _ => 9) "http://x/y.zip" none "wd"
        10 []).1 (by decide)⟩,
    (c9_maybe_download_verification (fun _ => 9) "http://x/y.zip" none "wd"
      10 []).2.2⟩

-- ### C10 — label presence by truthiness at the batching/prediction layer

/-- C10: `create_data_loader` and `BERTTokenClassifier.predict` decide label
presence by truthiness — the empty label list behaves exactly like `None`
(two-tensor dataset; no evaluation-loss branch) — whereas
`preprocess_ner_tokens` tests `labels is not None` and still returns the
4-tuple for the empty list. -/
theorem c10_truthiness_vs_is_not_none (conv : String → Nat)
    (tok : String → List String) (text : List String)
    (lm : Option (String → Nat)) (ttag : String)
    (ids mask : List (List Nat)) (sm : String) (bs : Nat)
    (fwd : List Nat → List Nat → List (List Int)) :
    create_data_loader ids mask (some []) sm bs =
      create_data_loader ids mask none sm bs ∧
    bert_predict fwd ids mask (some []) bs =
      bert_predict fwd ids mask none bs ∧
    (∀ pr : List (List Nat) × Bool,
      bert_predict fwd ids mask (some []) bs = .ok pr → pr.2 = false) ∧
    nerIsFour (preprocess_ner_tokens conv tok text 512 (some []) lm ttag) =
      true := by
  refine ⟨rfl, rfl, ?_, rfl⟩
  intro pr hpr
  simp only [bert_predict] at hpr
  by_cases hb : (chunks bs (ids.zip mask)).isEmpty
  · rw [if_pos hb] at hpr
    cases hpr
  · rw [if_neg hb] at hpr
    have := (Except.ok.injEq _ _).mp hpr
    rw [← this]
    rfl

/-- C10 witness: applied at one concrete row; the empty-list call matches
the `None` call, its loss flag is `false`, and the NER preprocessing still
returns the 4-tuple for `labels = []`. -/
theorem c10_witness :
    (create_data_loader [[1]] [[1]] (some []) "random" 1 =
        create_data_loader [[1]] [[1]] none "random" 1 ∧
      bert_predict (fun _ _ => [[5]]) [[1]] [[1]] (some []) 1 =
        bert_predict (fun _ _ => [[5]]) [[1]] [[1]] none 1 ∧
      nerIsFour (preprocess_ner_tokens (fun s => s.length) (fun w => [w]) ["a"]
        512 (some []) none "X") = true) ∧
    ([[0]], false).2 = false :=
  ⟨⟨(c10_truthiness_vs_is_not_none (fun s => s.length) (fun w => [w]) ["a"]
        none "X" [[1]] [[1]] "random" 1 (fun _ _ => [[5]])).1,
      (c10_truthiness_vs_is_not_none (fun s => s.length) (fun w => [w]) ["a"]
        none "X" [[1]] [[1]] "random" 1 (fun _ _ => [[5]])).2.1,
      (c10_truthiness_vs_is_not_none (fun s => s.length) (fun w => [w]) ["a"]
        none "X" [[1]] [[1]] "random" 1 (fun _ _ => [[5]])).2.2.2⟩,
    (c10_truthiness_vs_is_not_none (fun s => s.length) (fun w => [w]) ["a"]
      none "X" [[1]] [[1]] "random" 1 (fun _ _ => [[5]])).2.2.1
      ([[0]], false) rfl⟩

-- ### C4 — conditional return arity of preprocess_ner_tokens

/-- C4: below the ceiling, `preprocess_ner_tokens` always returns normally,
and it returns the 4-tuple (with `label_ids_all` as 4th element) exactly
when `labels` was non-`None` at call time — `label_available` is captured
with `labels is not None` *before* the internal defaulting, so even an empty
label list yields the 4-tuple. -/
theorem c4_return_arity (conv : String → Nat) (tok : String → List String)
    (text : List String) (max_len : Nat)
    (labels : Option (List (List String))) (lm : Option (String → Nat))
    (ttag : String) (hml : max_len ≤ BERT_MAX_LEN) :
    nerOk (preprocess_ner_tokens conv tok text max_len labels lm ttag) =
      true ∧
    nerIsFour (preprocess_ner_tokens conv tok text max_len labels lm ttag) =
      labels.isSome := by
  rcases labels with _ | ls <;>
    constructor <;>
      simp [preprocess_ner_tokens, Nat.not_lt.mpr hml, nerOk, nerIsFour,
        NerResult.isFour]

/-- C4 witness: applied with `labels = some []` — non-`None` but falsy — the
call still returns the 4-tuple. -/
theorem c4_witness :
    512 ≤ BERT_MAX_LEN ∧
    (nerOk (preprocess_ner_tokens (fun s => s.length) (fun w => [w]) ["a"]
        512 (some []) none "X") = true ∧
      nerIsFour (preprocess_ner_tokens (fun s => s.length) (fun w => [w])
        ["a"] 512 (some []) none "X") =
        (some ([] : List (List String))).isSome) :=
  ⟨by decide,
    c4_return_arity (fun s => s.length) (fun w => [w]) ["a"] 512 (some [])
      none "X" (by decide)⟩

-- ### C3 — fragment labels and the trailing-subword mask

/-- C3 (amended): the label part of the claim holds — word `w`'s first
fragment carries the word's own tag and fragments `2..k` carry the trailing
tag (assuming the sentence's fragments fit in `max_len`, else truncation
intervenes).  The mask part is corrected: the trailing-token mask is
computed over the *post-padding* label sequence, so its length is `max_len`
(not the pre-padding length), each fragment position `q` holds
`label_q != trailing_tag` (`False` at trailing fragments, and at a first
fragment only if the word's own tag equals the trailing tag), and every
padding position holds `"O" != trailing_tag` — `True` for the default tag,
not `False` as the claim requires.  See `c3_counterexample`. -/
theorem c3_fragment_labels_and_trailing_mask (conv : String → Nat)
    (tok : String → List String) (ttag : String) (text : List String)
    (ls : List (List String)) (max_len j : Nat)
    (hml : max_len ≤ BERT_MAX_LEN) (hj : j < text.length)
    (hjl : j < ls.length)
    (hfrag : totalFrags tok (sentPairs text ls j) ≤ max_len) :
    (∀ w i, w < (sentPairs text ls j).length →
      i < (tok ((sentPairs text ls j).getD w ("", "")).1).length →
      ((nerLabelIds (preprocess_ner_tokens conv tok text max_len (some ls)
          none ttag)).getD j []).getD
          (fragOffset tok (sentPairs text ls j) w + i) (.str "") =
        .str (if i = 0 then ((sentPairs text ls j).getD w ("", "")).2
          else ttag)) ∧
    ((nerTrailing (preprocess_ner_tokens conv tok text max_len (some ls)
        none ttag)).getD j []).length = max_len ∧
    (∀ w i, w < (sentPairs text ls j).length →
      i < (tok ((sentPairs text ls j).getD w ("", "")).1).length →
      ((nerTrailing (preprocess_ner_tokens conv tok text max_len (some ls)
          none ttag)).getD j []).getD
          (fragOffset tok (sentPairs text ls j) w + i) false =
        ((if i = 0 then ((sentPairs text ls j).getD w ("", "")).2 else ttag)
          != ttag)) ∧
    (∀ p, totalFrags tok (sentPairs text ls j) ≤ p → p < max_len →
      ((nerTrailing (preprocess_ner_tokens conv tok text max_len (some ls)
          none ttag)).getD j []).getD p false = ("O" != ttag)) := by
  have hres := preprocess_ner_some_eq conv tok text max_len ls ttag hml
  have hrowlen : j < (nerRows conv tok ttag max_len text ls).length := by
    rw [nerRows_length]
    omega
  have hrow := nerRows_getD conv tok ttag max_len text ls j
    ⟨[], [], [], []⟩ hj hjl
  have hPS := processSentence_no_trunc conv tok ttag max_len
    (text.getD j "") (ls.getD j []) hfrag
  have hL : (nerLabelIds (preprocess_ner_tokens conv tok text max_len
      (some ls) none ttag)).getD j [] =
      ((buildTokensLabels tok ttag (sentPairs text ls j)).2 ++
        List.replicate (max_len - totalFrags tok (sentPairs text ls j)) "O").map
        PyLabel.str := by
    rw [hres]
    show ((nerRows conv tok ttag max_len text ls).map
      (fun r => r.labels_padded.map PyLabel.str)).getD j [] = _
    rw [getD_map_lt _ hrowlen [] ⟨[], [], [], []⟩, hrow, hPS]
    rfl
  have hT : (nerTrailing (preprocess_ner_tokens conv tok text max_len
      (some ls) none ttag)).getD j [] =
      ((buildTokensLabels tok ttag (sentPairs text ls j)).2 ++
        List.replicate (max_len - totalFrags tok (sentPairs text ls j)) "O").map
        (fun l => l != ttag) := by
    rw [hres]
    show ((nerRows conv tok ttag max_len text ls).map
      (fun r => r.trailing)).getD j [] = _
    rw [getD_map_lt _ hrowlen [] ⟨[], [], [], []⟩, hrow, hPS]
    rfl
  have hlablen : ((buildTokensLabels tok ttag (sentPairs text ls j)).2 ++
      List.replicate (max_len - totalFrags tok (sentPairs text ls j)) "O").length =
      max_len := by
    rw [List.length_append, List.length_replicate,
      build_snd_length tok ttag (sentPairs text ls j)]
    omega
  have hinner : ∀ w i, w < (sentPairs text ls j).length →
      i < (tok ((sentPairs text ls j).getD w ("", "")).1).length →
      ((buildTokensLabels tok ttag (sentPairs text ls j)).2 ++
        List.replicate (max_len - totalFrags tok (sentPairs text ls j)) "O").getD
        (fragOffset tok (sentPairs text ls j) w + i) "" =
        (if i = 0 then ((sentPairs text ls j).getD w ("", "")).2 else ttag) := by
    intro w i hw hi
    have hq : fragOffset tok (sentPairs text ls j) w + i <
        totalFrags tok (sentPairs text ls j) := by
      have := fragOffset_add_le tok (sentPairs text ls j) w hw
      omega
    rw [List.getD_append _ _ _ _ (by
      rw [build_snd_length tok ttag (sentPairs text ls j)]
      exact hq)]
    exact build_labels_getD tok ttag (sentPairs text ls j) w i "" hw hi
  refine ⟨?_, ?_, ?_, ?_⟩
  · intro w i hw hi
    have hq : fragOffset tok (sentPairs text ls j) w + i <
        totalFrags tok (sentPairs text ls j) := by
      have := fragOffset_add_le tok (sentPairs text ls j) w hw
      omega
    have hidx : fragOffset tok (sentPairs text ls j) w + i <
        ((buildTokensLabels tok ttag (sentPairs text ls j)).2 ++
          List.replicate (max_len - totalFrags tok (sentPairs text ls j))
            "O").length := by
      rw [hlablen]
      omega
    rw [hL, getD_map_lt PyLabel.str hidx (PyLabel.str "") ""]
    rw [hinner w i hw hi]
  · rw [hT, List.length_map, hlablen]
  · intro w i hw hi
    have hq : fragOffset tok (sentPairs text ls j) w + i <
        totalFrags tok (sentPairs text ls j) := by
      have := fragOffset_add_le tok (sentPairs text ls j) w hw
      omega
    have hidx : fragOffset tok (sentPairs text ls j) w + i <
        ((buildTokensLabels tok ttag (sentPairs text ls j)).2 ++
          List.replicate (max_len - totalFrags tok (sentPairs text ls j))
            "O").length := by
      rw [hlablen]
      omega
    rw [hT, getD_map_lt (fun l => l != ttag) hidx false ""]
    rw [hinner w i hw hi]
  · intro p hp1 hp2
    have hidx : p <
        ((buildTokensLabels tok ttag (sentPairs text ls j)).2 ++
          List.replicate (max_len - totalFrags tok (sentPairs text ls j))
            "O").length := by
      rw [hlablen]
      omega
    rw [hT, getD_map_lt (fun l => l != ttag) hidx false ""]
    rw [List.getD_append_right _ _ _ _ (by
      rw [build_snd_length tok ttag (sentPairs text ls j)]
      exact hp1)]
    rw [build_snd_length tok ttag (sentPairs text ls j)]
    rw [getD_replicate_lt (by omega)]

/-- C3 counterexample: one word `"a"` (one fragment) with tag `"B"`,
`max_len = 3`.  The claim requires a mask aligned to the pre-padding token
sequence — `[[true]]` — with `True` only at the fragment-1 position.  The
code computes the mask *after* padding the labels with `"O"`, yielding
`[[true, true, true]]`: length 3, `True` at both padding positions. -/
theorem c3_counterexample :
    nerTrailing (preprocess_ner_tokens (fun s => s.length) (fun w => [w])
        ["a"] 3 (some [["B"]]) none "X") = [[true, true, true]] ∧
    ([[true, true, true]] : List (List Bool)) ≠ [[true]] := by
  exact ⟨rfl, by decide⟩

/-- C3 witness: the amended theorem applied at `text = ["play soccer"]`,
labels `[["B-ACT", "B-OBJ"]]`, a tokenizer splitting `"soccer"` into two
pieces, `max_len = 5`, for word 1 fragment 1 (a trailing piece) and padding
position 4. -/
theorem c3_witness :
    ((nerLabelIds (preprocess_ner_tokens (fun s => s.length)
        (fun w => if w = "soccer" then ["soc", "##cer"] else [w])
        ["play soccer"] 5 (some [["B-ACT", "B-OBJ"]]) none "X")).getD 0 []).getD
        (fragOffset (fun w => if w = "soccer" then ["soc", "##cer"] else [w])
          (sentPairs ["play soccer"] [["B-ACT", "B-OBJ"]] 0) 1 + 1)
        (PyLabel.str "") =
      PyLabel.str (if 1 = 0 then
        ((sentPairs ["play soccer"] [["B-ACT", "B-OBJ"]] 0).getD 1 ("", "")).2
        else "X") ∧
    ((nerTrailing (preprocess_ner_tokens (fun s => s.length)
        (fun w => if w = "soccer" then ["soc", "##cer"] else [w])
        ["play soccer"] 5 (some [["B-ACT", "B-OBJ"]]) none "X")).getD 0
        []).length = 5 ∧
    ((nerTrailing (preprocess_ner_tokens (fun s => s.length)
        (fun w => if w = "soccer" then ["soc", "##cer"] else [w])
        ["play soccer"] 5 (some [["B-ACT", "B-OBJ"]]) none "X")).getD 0
        []).getD
        (fragOffset (fun w => if w = "soccer" then ["soc", "##cer"] else [w])
          (sentPairs ["play soccer"] [["B-ACT", "B-OBJ"]] 0) 1 + 1) false =
      ((if 1 = 0 then
        ((sentPairs ["play soccer"] [["B-ACT", "B-OBJ"]] 0).getD 1 ("", "")).2
        else "X") != "X") ∧
    ((nerTrailing (preprocess_ner_tokens (fun s => s.length)
        (fun w => if w = "soccer" then ["soc", "##cer"] else [w])
        ["play soccer"] 5 (some [["B-ACT", "B-OBJ"]]) none "X")).getD 0
        []).getD 4 false = ("O" != "X") :=
  ⟨(c3_fragment_labels_and_trailing_mask (fun s => s.length)
      (fun w => if w = "soccer" then ["soc", "##cer"] else [w]) "X"
      ["play soccer"] [["B-ACT", "B-OBJ"]] 5 0 (by decide) (by decide)
      (by decide) (by decide)).1 1 1 (by decide) (by decide),
    (c3_fragment_labels_and_trailing_mask (fun s => s.length)
      (fun w => if w = "soccer" then ["soc", "##cer"] else [w]) "X"
      ["play soccer"] [["B-ACT", "B-OBJ"]] 5 0 (by decide) (by decide)
      (by decide) (by decide)).2.1,
    (c3_fragment_labels_and_trailing_mask (fun s => s.length)
      (fun w => if w = "soccer" then ["soc", "##cer"] else [w]) "X"
      ["play soccer"] [["B-ACT", "B-OBJ"]] 5 0 (by decide) (by decide)
      (by decide) (by decide)).2.2.1 1 1 (by decide) (by decide),
    (c3_fragment_labels_and_trailing_mask (fun s => s.length)
      (fun w => if w = "soccer" then ["soc", "##cer"] else [w]) "X"
      ["play soccer"] [["B-ACT", "B-OBJ"]] 5 0 (by decide) (by decide)
      (by decide) (by decide)).2.2.2 4 (by decide) (by decide)⟩

-- ### C5 — postprocess round trip

lemma ner_mask_eq (conv : String → Nat) (tok : String → List String)
    (ttag : String) (text : List String) (ls : List (List String))
    (max_len : Nat) (hml : max_len ≤ BERT_MAX_LEN) :
    nerMask (preprocess_ner_tokens conv tok text max_len (some ls) none ttag) =
      (nerRows conv tok ttag max_len text ls).map (fun r => r.input_mask) := by
  rw [preprocess_ner_some_eq conv tok text max_len ls ttag hml]
  rfl

lemma ner_trailing_eq (conv : String → Nat) (tok : String → List String)
    (ttag : String) (text : List String) (ls : List (List String))
    (max_len : Nat) (hml : max_len ≤ BERT_MAX_LEN) :
    nerTrailing (preprocess_ner_tokens conv tok text max_len (some ls) none ttag) =
      (nerRows conv tok ttag max_len text ls).map (fun r => r.trailing) := by
  rw [preprocess_ner_some_eq conv tok text max_len ls ttag hml]
  rfl

lemma postprocess_ner_unfold (conv : String → Nat)
    (tok : String → List String) (ttag : String) (text : List String)
    (ls : List (List String)) (preds : List (List Nat)) (max_len : Nat)
    (hml : max_len ≤ BERT_MAX_LEN) (hlslen : ls.length = text.length)
    (htext : text ≠ []) :
    postprocess_token_labels none preds
      (nerMask (preprocess_ner_tokens conv tok text max_len (some ls) none ttag))
      true
      (some (nerTrailing (preprocess_ner_tokens conv tok text max_len
        (some ls) none ttag))) =
      (((preds.zip (nerMask (preprocess_ner_tokens conv tok text max_len
          (some ls) none ttag))).map (fun p => stripPad p.1 p.2)).zip
        (((nerTrailing (preprocess_ner_tokens conv tok text max_len (some ls)
          none ttag)).zip (nerMask (preprocess_ner_tokens conv tok text
          max_len (some ls) none ttag))).map
          (fun p => stripPad p.1 p.2))).map
        (fun p => maskFilter p.1 p.2) := by
  have hTlen : (nerTrailing (preprocess_ner_tokens conv tok text max_len
      (some ls) none ttag)).length = text.length := by
    rw [ner_trailing_eq conv tok ttag text ls max_len hml, List.length_map,
      nerRows_length, hlslen]
    omega
  have htruthy : (true && listTruthy (some (nerTrailing
      (preprocess_ner_tokens conv tok text max_len (some ls) none ttag)))) =
      true := by
    rcases hc : nerTrailing (preprocess_ner_tokens conv tok text max_len
      (some ls) none ttag) with _ | ⟨x, xs⟩
    · rw [hc] at hTlen
      exact absurd (List.length_eq_zero.mp hTlen.symm) htext
    · simp [listTruthy]
  simp only [postprocess_token_labels]
  rw [if_pos htruthy]
  rfl

lemma postprocess_ner_row (conv : String → Nat) (tok : String → List String)
    (ttag : String) (text : List String) (ls : List (List String))
    (preds : List (List Nat)) (max_len j : Nat)
    (hml : max_len ≤ BERT_MAX_LEN) (hlslen : ls.length = text.length)
    (hfragj : totalFrags tok (sentPairs text ls j) ≤ max_len)
    (hcondj : ∀ p ∈ sentPairs text ls j, tok p.1 ≠ [] ∧ p.2 ≠ ttag)
    (hplen : preds.length = text.length)
    (hprowj : (preds.getD j []).length = max_len)
    (hj : j < text.length) :
    (postprocess_token_labels none preds
      (nerMask (preprocess_ner_tokens conv tok text max_len (some ls) none ttag))
      true
      (some (nerTrailing (preprocess_ner_tokens conv tok text max_len
        (some ls) none ttag)))).getD j [] =
      firstFrags tok (sentPairs text ls j)
        ((preds.getD j []).take (totalFrags tok (sentPairs text ls j))) := by
  have htext : text ≠ [] := by
    intro h
    rw [h] at hj
    simp at hj
  have hjl : j < ls.length := by omega
  have hrowlen : j < (nerRows conv tok ttag max_len text ls).length := by
    rw [nerRows_length]
    omega
  have hrow := nerRows_getD conv tok ttag max_len text ls j
    ⟨[], [], [], []⟩ hj hjl
  have hPS := processSentence_no_trunc conv tok ttag max_len
    (text.getD j "") (ls.getD j []) hfragj
  have hMj : (nerMask (preprocess_ner_tokens conv tok text max_len (some ls)
      none ttag)).getD j [] =
      List.replicate (totalFrags tok (sentPairs text ls j)) 1 ++
        List.replicate (max_len - totalFrags tok (sentPairs text ls j)) 0 := by
    rw [ner_mask_eq conv tok ttag text ls max_len hml,
      getD_map_lt _ hrowlen [] ⟨[], [], [], []⟩, hrow, hPS]
    rfl
  have hTj : (nerTrailing (preprocess_ner_tokens conv tok text max_len
      (some ls) none ttag)).getD j [] =
      ((buildTokensLabels tok ttag (sentPairs text ls j)).2 ++
        List.replicate (max_len - totalFrags tok (sentPairs text ls j)) "O").map
        (fun l => l != ttag) := by
    rw [ner_trailing_eq conv tok ttag text ls max_len hml,
      getD_map_lt _ hrowlen [] ⟨[], [], [], []⟩, hrow, hPS]
    rfl
  have hMlen : (nerMask (preprocess_ner_tokens conv tok text max_len
      (some ls) none ttag)).length = text.length := by
    rw [ner_mask_eq conv tok ttag text ls max_len hml, List.length_map,
      nerRows_length, hlslen]
    omega
  have hTlen : (nerTrailing (preprocess_ner_tokens conv tok text max_len
      (some ls) none ttag)).length = text.length := by
    rw [ner_trailing_eq conv tok ttag text ls max_len hml, List.length_map,
      nerRows_length, hlslen]
    omega
  rw [postprocess_ner_unfold conv tok ttag text ls preds max_len hml hlslen
    htext]
  rw [zipMap_getD _ _ _ j [] [] []
    (by simp [List.length_zip, hMlen, hplen]; omega)
    (by simp [List.length_zip, hMlen, hTlen]; omega)]
  rw [zipMap_getD _ _ _ j [] [] [] (by omega) (by rw [hMlen]; omega)]
  rw [zipMap_getD _ _ _ j [] [] [] (by rw [hTlen]; omega) (by rw [hMlen]; omega)]
  rw [hMj, hTj]
  have hstrip1 : stripPad (preds.getD j [])
      (List.replicate (totalFrags tok (sentPairs text ls j)) 1 ++
        List.replicate (max_len - totalFrags tok (sentPairs text ls j)) 0) =
      (preds.getD j []).take (totalFrags tok (sentPairs text ls j)) :=
    stripPad_ones_zeros (by omega)
  have hmaplen : ((buildTokensLabels tok ttag (sentPairs text ls j)).2 ++
      List.replicate (max_len - totalFrags tok (sentPairs text ls j)) "O").length
      = max_len := by
    rw [List.length_append, List.length_replicate,
      build_snd_length tok ttag (sentPairs text ls j)]
    omega
  have hstrip2 : stripPad
      (((buildTokensLabels tok ttag (sentPairs text ls j)).2 ++
        List.replicate (max_len - totalFrags tok (sentPairs text ls j)) "O").map
        (fun l => l != ttag))
      (List.replicate (totalFrags tok (sentPairs text ls j)) 1 ++
        List.replicate (max_len - totalFrags tok (sentPairs text ls j)) 0) =
      (buildTokensLabels tok ttag (sentPairs text ls j)).2.map
        (fun l => l != ttag) := by
    rw [stripPad_ones_zeros (by
      rw [List.length_map, hmaplen]
      omega)]
    rw [List.map_append]
    have hbl : ((buildTokensLabels tok ttag (sentPairs text ls j)).2.map
        (fun l => l != ttag)).length = totalFrags tok (sentPairs text ls j) := by
      rw [List.length_map, build_snd_length]
    rw [← hbl, List.take_left]
  rw [hstrip1, hstrip2]
  exact maskFilter_build_eq_firstFrags tok ttag (sentPairs text ls j)
    ((preds.getD j []).take (totalFrags tok (sentPairs text ls j)))
    (by
      rw [List.length_take, hprowj]
      omega)
    (fun p hp => (hcondj p hp).2)

lemma getD_mem {l : List α} {n : Nat} (h : n < l.length) (d : α) :
    l.getD n d ∈ l := by
  induction l generalizing n with
  | nil => simp at h
  | cons a t ih =>
    cases n with
    | zero => simp
    | succ m =>
      simp only [List.getD_cons_succ]
      exact List.mem_cons_of_mem _ (ih (by simpa using h))

/-- C5 (amended: additionally requires that no original word label equals
the trailing tag and that every word yields at least one fragment — if a
word's own tag is the trailing tag its first-fragment mask entry is `False`
and the word is dropped, see `c5_counterexample`).  For predictions aligned
with `preprocess_ner_tokens` outputs (one prediction per position, total
fragments per input within `max_len`), `postprocess_token_labels` with
padding stripping and trailing-piece removal returns exactly one label per
original word, in word order, namely the prediction at each word's
first-fragment position. -/
theorem c5_postprocess_round_trip (conv : String → Nat)
    (tok : String → List String) (ttag : String) (text : List String)
    (ls : List (List String)) (preds : List (List Nat)) (max_len : Nat)
    (hml : max_len ≤ BERT_MAX_LEN) (hlslen : ls.length = text.length)
    (hwords : ∀ j, j < text.length →
      (ls.getD j []).length = (pySplit (text.getD j "")).length)
    (hfrag : ∀ j, j < text.length →
      totalFrags tok (sentPairs text ls j) ≤ max_len)
    (hcond : ∀ j, j < text.length →
      ∀ p ∈ sentPairs text ls j, tok p.1 ≠ [] ∧ p.2 ≠ ttag)
    (hplen : preds.length = text.length)
    (hprow : ∀ j, j < text.length → (preds.getD j []).length = max_len) :
    (postprocess_token_labels none preds
      (nerMask (preprocess_ner_tokens conv tok text max_len (some ls) none
        ttag)) true
      (some (nerTrailing (preprocess_ner_tokens conv tok text max_len
        (some ls) none ttag)))).length = text.length ∧
    ∀ j, j < text.length →
      ((postprocess_token_labels none preds
        (nerMask (preprocess_ner_tokens conv tok text max_len (some ls) none
          ttag)) true
        (some (nerTrailing (preprocess_ner_tokens conv tok text max_len
          (some ls) none ttag)))).getD j []).length =
        (pySplit (text.getD j "")).length ∧
      ∀ w, w < (pySplit (text.getD j "")).length →
        ((postprocess_token_labels none preds
          (nerMask (preprocess_ner_tokens conv tok text max_len (some ls)
            none ttag)) true
          (some (nerTrailing (preprocess_ner_tokens conv tok text max_len
            (some ls) none ttag)))).getD j []).getD w 0 =
          (preds.getD j []).getD (fragOffset tok (sentPairs text ls j) w) 0 := by
  constructor
  · by_cases htext : text = []
    · have hp0 : preds = [] := by
        apply List.length_eq_zero.mp
        rw [hplen, htext]
        rfl
      rw [hp0, htext]
      simp only [postprocess_token_labels]
      split <;> simp
    · have hMlen : (nerMask (preprocess_ner_tokens conv tok text max_len
          (some ls) none ttag)).length = text.length := by
        rw [ner_mask_eq conv tok ttag text ls max_len hml, List.length_map,
          nerRows_length, hlslen]
        omega
      have hTlen : (nerTrailing (preprocess_ner_tokens conv tok text max_len
          (some ls) none ttag)).length = text.length := by
        rw [ner_trailing_eq conv tok ttag text ls max_len hml,
          List.length_map, nerRows_length, hlslen]
        omega
      rw [postprocess_ner_unfold conv tok ttag text ls preds max_len hml
        hlslen htext]
      simp [List.length_map, List.length_zip, hMlen, hTlen, hplen]
  · intro j hj
    have hrowe := postprocess_ner_row conv tok ttag text ls preds max_len j
      hml hlslen (hfrag j hj) (hcond j hj) hplen (hprow j hj) hj
    have hne : ∀ p ∈ sentPairs text ls j, tok p.1 ≠ [] :=
      fun p hp => (hcond j hj p hp).1
    have hpairslen : (sentPairs text ls j).length =
        (pySplit (text.getD j "")).length := by
      simp only [sentPairs, List.length_zip, hwords j hj]
      omega
    have htakelen : totalFrags tok (sentPairs text ls j) ≤
        ((preds.getD j []).take (totalFrags tok (sentPairs text ls j))).length := by
      rw [List.length_take, hprow j hj]
      have := hfrag j hj
      omega
    constructor
    · rw [hrowe, firstFrags_length tok _ _ hne htakelen]
      exact hpairslen
    · intro w hw
      have hwp : w < (sentPairs text ls j).length := by
        rw [hpairslen]
        omega
      rw [hrowe, firstFrags_getD tok _ _ w 0 hne htakelen hwp]
      apply getD_take
      have hadd := fragOffset_add_le tok (sentPairs text ls j) w hwp
      have hk : 0 < (tok ((sentPairs text ls j).getD w ("", "")).1).length :=
        List.length_pos.mpr (hne _ (getD_mem hwp ("", "")))
      omega

/-- C5 counterexample: a single word whose *own* label is the trailing tag
`"X"`.  Its first-fragment trailing-mask entry is `"X" != "X" = False`, so
trailing-piece removal drops the word's only prediction and the round trip
returns zero labels for one word — not "exactly one label per original
word" (the claim would require `[[5]]`). -/
theorem c5_counterexample :
    postprocess_token_labels none [[5, 6]]
      (nerMask (preprocess_ner_tokens (fun s => s.length) (fun w => [w])
        ["a"] 2 (some [["X"]]) none "X")) true
      (some (nerTrailing (preprocess_ner_tokens (fun s => s.length)
        (fun w => [w]) ["a"] 2 (some [["X"]]) none "X"))) = [[]] ∧
    ([([] : List Nat)] ≠ [[5]]) := by
  exact ⟨rfl, by decide⟩

/-- C5 witness: the amended theorem applied at `text = ["play soccer"]`,
labels `[["B-ACT", "B-OBJ"]]`, a tokenizer splitting `"soccer"` into two
pieces, `max_len = 5`, predictions `[[10, 20, 30, 40, 50]]`: one label per
word, taken from each word's first fragment. -/
theorem c5_witness :
    (postprocess_token_labels none [[10, 20, 30, 40, 50]]
      (nerMask (preprocess_ner_tokens (fun s => s.length)
        (fun w => if w = "soccer" then ["soc", "##cer"] else [w])
        ["play soccer"] 5 (some [["B-ACT", "B-OBJ"]]) none "X")) true
      (some (nerTrailing (preprocess_ner_tokens (fun s => s.length)
        (fun w => if w = "soccer" then ["soc", "##cer"] else [w])
        ["play soccer"] 5 (some [["B-ACT", "B-OBJ"]]) none "X")))).length =
      ["play soccer"].length ∧
    ((postprocess_token_labels none [[10, 20, 30, 40, 50]]
      (nerMask (preprocess_ner_tokens (fun s => s.length)
        (fun w => if w = "soccer" then ["soc", "##cer"] else [w])
        ["play soccer"] 5 (some [["B-ACT", "B-OBJ"]]) none "X")) true
      (some (nerTrailing (preprocess_ner_tokens (fun s => s.length)
        (fun w => if w = "soccer" then ["soc", "##cer"] else [w])
        ["play soccer"] 5 (some [["B-ACT", "B-OBJ"]]) none "X")))).getD 0
        []).length = (pySplit ((["play soccer"] : List String).getD 0 "")).length ∧
    ((postprocess_token_labels none [[10, 20, 30, 40, 50]]
      (nerMask (preprocess_ner_tokens (fun s => s.length)
        (fun w => if w = "soccer" then ["soc", "##cer"] else [w])
        ["play soccer"] 5 (some [["B-ACT", "B-OBJ"]]) none "X")) true
      (some (nerTrailing (preprocess_ner_tokens (fun s => s.length)
        (fun w => if w = "soccer" then ["soc", "##cer"] else [w])
        ["play soccer"] 5 (some [["B-ACT", "B-OBJ"]]) none "X")))).getD 0
        []).getD 1 0 =
      ([[10, 20, 30, 40, 50]].getD 0 []).getD
        (fragOffset (fun w => if w = "soccer" then ["soc", "##cer"] else [w])
          (sentPairs ["play soccer"] [["B-ACT", "B-OBJ"]] 0) 1) 0 :=
  ⟨(c5_postprocess_round_trip (fun s => s.length)
      (fun w => if w = "soccer" then ["soc", "##cer"] else [w]) "X"
      ["play soccer"] [["B-ACT", "B-OBJ"]] [[10, 20, 30, 40, 50]] 5
      (by decide) (by decide) (by decide) (by decide) (by decide) (by decide)
      (by decide)).1,
    ((c5_postprocess_round_trip (fun s => s.length)
      (fun w => if w = "soccer" then ["soc", "##cer"] else [w]) "X"
      ["play soccer"] [["B-ACT", "B-OBJ"]] [[10, 20, 30, 40, 50]] 5
      (by decide) (by decide) (by decide) (by decide) (by decide) (by decide)
      (by decide)).2 0 (by decide)).1,
    ((c5_postprocess_round_trip (fun s => s.length)
      (fun w => if w = "soccer" then ["soc", "##cer"] else [w]) "X"
      ["play soccer"] [["B-ACT", "B-OBJ"]] [[10, 20, 30, 40, 50]] 5
      (by decide) (by decide) (by decide) (by decide) (by decide) (by decide)
      (by decide)).2 0 (by decide)).2 1 (by decide)⟩
